import Mathlib

/-!
Shallow embedding of `djchat/server/views.py` (`ServerListViewSet.list`).

The handler reads five optional query parameters, conditionally narrows a
base queryset (category, membership, server id), optionally annotates a
member count, truncates by quantity, and serializes the rows.  We embed the
handler as a pure function from a database (the stored servers) and a
request to `Except HandlerError (List ServerOut)`.

Framework semantics that the embedding commits to:
  * Python string truthiness: a `None`/absent or empty query parameter is
    falsy, every non-empty string is truthy (`pyTruthy`).
  * Python `int(str)`: decimal digits with an optional sign and surrounding
    whitespace parse; anything else raises `ValueError` (`pyInt`; PEP-515
    underscore grouping is not modelled, no claim depends on it).  Django
    integer-field lookups (`filter(id=...)`) convert with the same rule and
    raise the same `ValueError`.
  * Django queryset slicing `qs[:n]` keeps the first `n` rows and asserts
    `n >= 0` ("Negative indexing is not supported.").
  * Django `annotate(Count("member"))` evaluated after a preceding
    `filter(member=user_id)` reuses the join on the member relation, so the
    count is computed over the *filtered* relation (the documented
    filter-then-annotate behaviour of the Django ORM); without a preceding
    member filter it is the full membership cardinality.  The embedding
    records the member-join constraint in the queryset (`memberFilter`) and
    snapshots it when the annotation is added (`annotated`).
-/

/-- A stored server row: primary key, category (modelled by the category
name, since the handler only ever compares `category__name`), and the
many-to-many membership relation as the list of member user ids (one entry
per membership row, hence duplicate-free in any real store). -/
structure Server where
  id : Nat
  category : String
  members : List Nat
  deriving Repr, DecidableEq

/-- The state of the queryset the handler builds up:
`rows` are the remaining candidate servers, `memberFilter` records an
existing join from `filter(member=user_id)` (it constrains a later
`Count("member")`), and `annotated = some mf` records that
`annotate(num_members=Count("member"))` was applied while the member join
constraint was `mf`. -/
structure QuerySet where
  rows : List Server
  memberFilter : Option Nat
  annotated : Option (Option Nat)
  deriving Repr, DecidableEq

/-- `Server.objects.all()` — the base queryset. -/
def QuerySet.all (db : List Server) : QuerySet :=
  { rows := db, memberFilter := none, annotated := none }

/-- `queryset.filter(category__name=category)`. -/
def QuerySet.filterCategory (qs : QuerySet) (c : String) : QuerySet :=
  { qs with rows := qs.rows.filter (fun s => s.category == c) }

/-- `queryset.filter(member=user_id)`: keeps servers whose membership
contains the user and leaves a join on the member relation constrained to
that user. -/
def QuerySet.filterMember (qs : QuerySet) (uid : Nat) : QuerySet :=
  { qs with
    rows := qs.rows.filter (fun s => decide (uid ∈ s.members)),
    memberFilter := some uid }

/-- `queryset.annotate(num_members=Count("member"))`: the count is computed
over the member relation as currently joined/filtered. -/
def QuerySet.annotateNumMembers (qs : QuerySet) : QuerySet :=
  { qs with annotated := some qs.memberFilter }

/-- `queryset.filter(id=n)` (after the id string parsed). -/
def QuerySet.filterId (qs : QuerySet) (n : Int) : QuerySet :=
  { qs with rows := qs.rows.filter (fun s => (s.id : Int) == n) }

/-- The value `Count("member")` produces for one row under a member-join
constraint `mf`: with no constraint, the full membership cardinality; with
the join constrained to user `u`, the number of membership rows for `u`. -/
def countMember (mf : Option Nat) (s : Server) : Nat :=
  match mf with
  | none => s.members.length
  | some u => s.members.count u

/-- Python truthiness of an optional query-parameter string. -/
def pyTruthy : Option String → Bool
  | none => false
  | some s => !(s == "")

/-- Digit run of a Python decimal int literal, accumulating the value;
fails on the first non-digit. -/
def pyDigits : Nat → List Char → Option Nat
  | acc, [] => some acc
  | acc, c :: rest =>
    if c.isDigit then pyDigits (acc * 10 + (c.toNat - 48)) rest else none

/-- Non-empty digit run. -/
def pyDigits1 : List Char → Option Nat
  | [] => none
  | c :: rest => if c.isDigit then pyDigits (c.toNat - 48) rest else none

/-- Whitespace characters Python `int` strips around a numeric literal. -/
def isPySpace (c : Char) : Bool :=
  c == ' ' || c == '\t' || c == '\n' || c == '\r' || c == '\x0b' || c == '\x0c'

/-- Strip leading and trailing whitespace from a character list. -/
def pyStrip (cs : List Char) : List Char :=
  ((cs.dropWhile isPySpace).reverse.dropWhile isPySpace).reverse

/-- Python `int(str)` on a decimal string: surrounding whitespace is
stripped, one optional sign, then at least one digit; `none` models the
`ValueError` raised otherwise. -/
def pyInt (s : String) : Option Int :=
  match pyStrip s.toList with
  | '+' :: rest => (pyDigits1 rest).map (fun n => (n : Int))
  | '-' :: rest => (pyDigits1 rest).map (fun n => -(n : Int))
  | rest => (pyDigits1 rest).map (fun n => (n : Int))

/-- An incoming request: the five optional query parameters exactly as
transmitted (strings), plus the authentication state (`request.user.is_authenticated`)
and identity (`request.user.id`) supplied by the framework. -/
structure Request where
  category : Option String
  qty : Option String
  by_user : Option String
  by_serverid : Option String
  with_num_members : Option String
  userAuthenticated : Bool
  userId : Nat
  deriving Repr, DecidableEq

/-- The terminal outcomes other than a 200 response:
`authenticationFailed` is DRF `AuthenticationFailed` (401-class),
`validationError` is DRF `ValidationError` with its detail message
(400-class), and `unhandledFault` is an uncaught Python exception
(`ValueError` from `int`, or the queryset assertion on negative slicing). -/
inductive HandlerError where
  | authenticationFailed
  | validationError (detail : String)
  | unhandledFault (msg : String)
  deriving Repr, DecidableEq

/-- Message of the uncaught `ValueError` from `int(qty)`. -/
def qtyFaultMsg : String := "ValueError: invalid literal for int() with base 10"

/-- Message of the uncaught assertion from slicing with a negative bound. -/
def negIndexMsg : String := "Negative indexing is not supported."

/-- A serialized server object of the response.  Modelled from the spec:
`serializer.py` is not part of the sources; the spec states that each
object carries the base fields and, exactly when `with_num_members=true`
is requested, a `num_members` integer. -/
structure ServerOut where
  id : Nat
  category : String
  num_members : Option Nat
  deriving Repr, DecidableEq

/-- `if category: queryset = queryset.filter(category__name=category)`
(views.py, the category block). -/
def stageCategory (cat : Option String) (qs : QuerySet) : QuerySet :=
  if pyTruthy cat then qs.filterCategory (cat.getD "") else qs

/-- The `by_user` block of views.py: when the flag is set, an authenticated
user filters by membership, an unauthenticated one gets
`AuthenticationFailed`. -/
def stageByUser (by_user : Bool) (auth : Bool) (uid : Nat) (qs : QuerySet) :
    Except HandlerError QuerySet :=
  if by_user then
    if auth then .ok (qs.filterMember uid) else .error .authenticationFailed
  else .ok qs

/-- The `with_num_members` block of views.py. -/
def stageAnnotate (wnm : Bool) (qs : QuerySet) : QuerySet :=
  if wnm then qs.annotateNumMembers else qs

/-- The `by_serverid` block of views.py: authentication check, then inside
`try`: the id filter (whose integer conversion raises `ValueError` on a
malformed id, caught and rewritten to `ValidationError("Server value error")`)
and the existence check on the *current* queryset, which raises
`ValidationError("Could not find server with ID <id>")` (a DRF error, not a
`ValueError`, so it escapes the `except` clause). -/
def stageServerId (by_serverid : Option String) (auth : Bool) (qs : QuerySet) :
    Except HandlerError QuerySet :=
  if pyTruthy by_serverid then
    if auth then
      match pyInt (by_serverid.getD "") with
      | none => .error (.validationError "Server value error")
      | some n =>
        let qs := qs.filterId n
        if qs.rows.isEmpty then
          .error (.validationError ("Could not find server with ID " ++ by_serverid.getD ""))
        else .ok qs
    else .error .authenticationFailed
  else .ok qs

/-- The `qty` block of views.py: `queryset = queryset[: int(qty)]` with no
guard — a non-numeric string raises an uncaught `ValueError`, a negative
value trips the queryset assertion against negative slicing. -/
def stageQty (qty : Option String) (qs : QuerySet) : Except HandlerError QuerySet :=
  if pyTruthy qty then
    match pyInt (qty.getD "") with
    | none => .error (.unhandledFault qtyFaultMsg)
    | some n =>
      if n < 0 then .error (.unhandledFault negIndexMsg)
      else .ok { qs with rows := qs.rows.take n.toNat }
  else .ok qs

/-- All the filtering stages of `ServerListViewSet.list` before the `qty`
truncation, in source order: category, by_user, with_num_members,
by_serverid. -/
def applyFilters (db : List Server) (req : Request) : Except HandlerError QuerySet :=
  match stageByUser (req.by_user == some "true") req.userAuthenticated req.userId
      (stageCategory req.category (QuerySet.all db)) with
  | .error e => .error e
  | .ok qs =>
    stageServerId req.by_serverid req.userAuthenticated
      (stageAnnotate (req.with_num_members == some "true") qs)

/-- `ServerSerializer(queryset, many=True, context={"num_members": wnm})`.
Modelled from the spec: each row maps to its base fields, and when the
context flag is set the annotated member count is emitted as `num_members`. -/
def serialize (wnm : Bool) (qs : QuerySet) : List ServerOut :=
  qs.rows.map (fun s =>
    { id := s.id, category := s.category,
      num_members := if wnm then qs.annotated.map (fun mf => countMember mf s) else none })

/-- The whole of `ServerListViewSet.list`: filtering stages, quantity
truncation, serialization. -/
def serverList (db : List Server) (req : Request) : Except HandlerError (List ServerOut) :=
  match applyFilters db req with
  | .error e => .error e
  | .ok qs =>
    match stageQty req.qty qs with
    | .error e => .error e
    | .ok qs => .ok (serialize (req.with_num_members == some "true") qs)

/-- A request with every parameter absent and no authentication. -/
def blankReq : Request :=
  { category := none, qty := none, by_user := none, by_serverid := none,
    with_num_members := none, userAuthenticated := false, userId := 0 }

/-! ### Structural lemmas about the pipeline stages -/

/-- Rows surviving the category stage come from the input queryset and, when
a category parameter is present, match it. -/
theorem mem_stageCategory {cat : Option String} {qs : QuerySet} {s : Server}
    (h : s ∈ (stageCategory cat qs).rows) :
    s ∈ qs.rows ∧ (pyTruthy cat = true → s.category == cat.getD "") := by
  by_cases hc : pyTruthy cat = true <;>
    simp [stageCategory, hc, QuerySet.filterCategory, List.mem_filter] at h ⊢ <;> tauto

/-- When the requester is authenticated, the by_user stage never fails. -/
theorem stageByUser_auth (bu : Bool) (uid : Nat) (qs : QuerySet) :
    stageByUser bu true uid qs = .ok (if bu then qs.filterMember uid else qs) := by
  cases bu <;> rfl

/-- Rows surviving the by_user stage come from the input queryset and, when
the flag was set, contain the user. -/
theorem mem_stageByUser {bu auth : Bool} {uid : Nat} {qs qs2 : QuerySet} {s : Server}
    (h : stageByUser bu auth uid qs = .ok qs2) (hs : s ∈ qs2.rows) :
    s ∈ qs.rows ∧ (bu = true → uid ∈ s.members) := by
  cases bu with
  | false => simp [stageByUser] at h; subst h; simp [hs]
  | true =>
    cases auth with
    | false => simp [stageByUser] at h
    | true =>
      simp [stageByUser] at h
      subst h
      simp [QuerySet.filterMember, List.mem_filter] at hs
      tauto

/-- The annotation stage does not change the rows. -/
theorem stageAnnotate_rows (w : Bool) (qs : QuerySet) :
    (stageAnnotate w qs).rows = qs.rows := by
  cases w <;> rfl

/-- Rows surviving the by_serverid stage come from the input queryset. -/
theorem mem_stageServerId {bs : Option String} {auth : Bool} {qs qs2 : QuerySet}
    {s : Server} (h : stageServerId bs auth qs = .ok qs2) (hs : s ∈ qs2.rows) :
    s ∈ qs.rows := by
  by_cases hb : pyTruthy bs = true
  · cases auth with
    | false => simp [stageServerId, hb] at h
    | true =>
      simp [stageServerId, hb] at h
      cases hp : pyInt (bs.getD "") with
      | none => simp [hp] at h
      | some n =>
        simp [hp] at h
        by_cases he : (qs.filterId n).rows = [] <;> simp [he] at h
        subst h
        simp [QuerySet.filterId, List.mem_filter] at hs
        exact hs.1
  · simp [stageServerId, hb] at h
    subst h
    exact hs

/-- Rows surviving the qty stage come from the input queryset. -/
theorem mem_stageQty {qty : Option String} {qs qs2 : QuerySet} {s : Server}
    (h : stageQty qty qs = .ok qs2) (hs : s ∈ qs2.rows) : s ∈ qs.rows := by
  by_cases hq : pyTruthy qty = true
  · simp [stageQty, hq] at h
    cases hp : pyInt (qty.getD "") with
    | none => simp [hp] at h
    | some n =>
      simp [hp] at h
      by_cases hneg : n < 0 <;> simp [hneg] at h
      subst h
      simp at hs
      exact List.mem_of_mem_take hs
  · simp [stageQty, hq] at h
    subst h
    exact hs

/-- A parseable string is non-empty. -/
theorem pyInt_ne_empty {q : String} {N : Int} (h : pyInt q = some N) : q ≠ "" := by
  intro he
  subst he
  simp [pyInt, pyStrip, pyDigits1] at h

/-- Every row of a successfully filtered queryset is a stored server; it
matches the category parameter when one was given, and contains the
requesting user when `by_user` was `"true"`. -/
theorem mem_applyFilters {db : List Server} {req : Request} {qs : QuerySet} {s : Server}
    (h : applyFilters db req = .ok qs) (hs : s ∈ qs.rows) :
    s ∈ db ∧ (pyTruthy req.category = true → s.category == req.category.getD "") ∧
      (req.by_user = some "true" → req.userId ∈ s.members) := by
  unfold applyFilters at h
  cases hBU : stageByUser (req.by_user == some "true") req.userAuthenticated req.userId
      (stageCategory req.category (QuerySet.all db)) with
  | error e => rw [hBU] at h; exact absurd h (by simp)
  | ok qs1 =>
    rw [hBU] at h
    have h1 : s ∈ (stageAnnotate (req.with_num_members == some "true") qs1).rows :=
      mem_stageServerId h hs
    rw [stageAnnotate_rows] at h1
    have h2 := mem_stageByUser hBU h1
    have h3 := mem_stageCategory h2.1
    refine ⟨h3.1, h3.2, fun hb => h2.2 ?_⟩
    simp [hb]

/-- C1, amended theorem.  The authentication gate fires exactly on the
conditions the code tests: `by_user` equal to the string `"true"`, or a
non-empty `by_serverid`; under either, an unauthenticated request fails
with the authentication error before any response is built. -/
theorem auth_error_of_by_user_true_or_serverid (db : List Server) (req : Request)
    (h : req.by_user = some "true" ∨ pyTruthy req.by_serverid = true)
    (hauth : req.userAuthenticated = false) :
    serverList db req = .error .authenticationFailed := by
  by_cases hbu : req.by_user = some "true"
  · simp [serverList, applyFilters, stageByUser, hbu, hauth]
  · have hbs : pyTruthy req.by_serverid = true := h.resolve_left hbu
    have hne : (req.by_user == some "true") = false := by
      simp [hbu]
    simp [serverList, applyFilters, stageByUser, stageServerId, hne, hauth, hbs]

/-- C1, witness: an unauthenticated request carrying `by_serverid=3` is
rejected with the authentication error. -/
theorem auth_error_of_by_user_true_or_serverid_witness :
    serverList [] { blankReq with by_serverid := some "3" } =
      .error .authenticationFailed :=
  auth_error_of_by_user_true_or_serverid [] { blankReq with by_serverid := some "3" }
    (Or.inr rfl) rfl

/-- C1, counterexample to the claim as stated: the `by_user` parameter is
*supplied* (with value `"false"`) by an unauthenticated requester, yet the
handler succeeds and returns the server list — the code only gates on the
exact string `"true"` (and on a non-empty `by_serverid`), not on the
parameter being present. -/
theorem auth_error_claim_cex :
    serverList [⟨1, "general", []⟩] { blankReq with by_user := some "false" } =
      .ok [⟨1, "general", none⟩] := rfl

/-- C2, evaluation at the failing input.  A server stores two members
(users 4 and 5).  User 4 requests `by_user=true&with_num_members=true`
while authenticated.  Because `annotate(Count("member"))` runs after
`filter(member=user_id)` and therefore counts over the filtered member
relation, the response reports `num_members = 1` although the membership
cardinality is 2 — contradicting the handler docstring ("the number of
members per server") and the spec. -/
theorem num_members_undercount_with_by_user :
    serverList [⟨1, "general", [4, 5]⟩]
        { blankReq with by_user := some "true", with_num_members := some "true",
                        userAuthenticated := true, userId := 4 } =
      .ok [⟨1, "general", some 1⟩] ∧
    (Server.members ⟨1, "general", [4, 5]⟩).length = 2 :=
  ⟨rfl, rfl⟩

/-- Serializing a truncated queryset is truncating the serialization. -/
theorem serialize_take (wnm : Bool) (qs : QuerySet) (n : Nat) :
    serialize wnm { qs with rows := qs.rows.take n } = (serialize wnm qs).take n := by
  simp [serialize, List.map_take]

/-- C3, theorem (confirmed).  When `qty` is a numeric string and the request
succeeds, the response is exactly the first `N` rows of the response the
same request would produce without `qty`, hence at most `N` objects; the
truncation bounds the fully filtered set. -/
theorem qty_truncates_filtered_set (db : List Server) (req : Request) (q : String)
    (N : Int) (out : List ServerOut) (hq : req.qty = some q) (hN : pyInt q = some N)
    (hok : serverList db req = .ok out) :
    ∃ full, serverList db { req with qty := none } = .ok full ∧
      out = full.take N.toNat ∧ out.length ≤ N.toNat := by
  have hfix : applyFilters db { req with qty := none } = applyFilters db req := rfl
  cases hAF : applyFilters db req with
  | error e => simp [serverList, hAF] at hok
  | ok qs =>
    have hqne : (q == "") = false := by
      simp [pyInt_ne_empty hN]
    rw [serverList, hAF, hq] at hok
    simp only [stageQty, pyTruthy, hqne, Bool.not_false, if_true, Option.getD_some,
      hN] at hok
    by_cases hneg : N < 0
    · simp [hneg] at hok
    · simp only [hneg, if_false] at hok
      refine ⟨serialize (req.with_num_members == some "true") qs, ?_, ?_, ?_⟩
      · simp [serverList, hfix, hAF, stageQty, pyTruthy]
      · simp only [Except.ok.injEq] at hok
        rw [← hok, serialize_take]
      · simp only [Except.ok.injEq] at hok
        rw [← hok, serialize_take]
        exact (List.length_take _ _).le.trans (min_le_left _ _)

/-- C3, witness: two stored servers, `qty=1`; the request returns the first
server only, the first element of the untruncated response. -/
theorem qty_truncates_filtered_set_witness :
    ∃ full,
      serverList [⟨1, "g", []⟩, ⟨2, "g", []⟩] { blankReq with qty := none } = .ok full ∧
      [(⟨1, "g", none⟩ : ServerOut)] = full.take (1 : Int).toNat ∧
      [(⟨1, "g", none⟩ : ServerOut)].length ≤ (1 : Int).toNat :=
  qty_truncates_filtered_set [⟨1, "g", []⟩, ⟨2, "g", []⟩]
    { blankReq with qty := some "1" } "1" 1 [⟨1, "g", none⟩] rfl rfl rfl

/-- For an authenticated requester the whole filtering pipeline reduces to
the by_serverid stage applied to the annotated, category/member-filtered
queryset. -/
theorem applyFilters_auth (db : List Server) (req : Request)
    (hauth : req.userAuthenticated = true) :
    applyFilters db req =
      stageServerId req.by_serverid true
        (stageAnnotate (req.with_num_members == some "true")
          (if req.by_user == some "true" then
            (stageCategory req.category (QuerySet.all db)).filterMember req.userId
          else stageCategory req.category (QuerySet.all db))) := by
  rw [applyFilters, hauth, stageByUser_auth]

/-- When the id parses but no row of the current queryset carries it, the
by_serverid stage raises the could-not-find validation error. -/
theorem stageServerId_not_found {bs : Option String} {qs : QuerySet} {s : String}
    {n : Int} (hbs : bs = some s) (hn : pyInt s = some n)
    (hrows : ∀ srv ∈ qs.rows, (srv.id : Int) ≠ n) :
    stageServerId bs true qs =
      .error (.validationError ("Could not find server with ID " ++ s)) := by
  have hne : (s == "") = false := by
    simp [pyInt_ne_empty hn]
  have hfil : (qs.filterId n).rows = [] := by
    simp only [QuerySet.filterId]
    rw [List.filter_eq_nil_iff]
    intro srv hsrv
    simpa using hrows srv hsrv
  simp [stageServerId, hbs, pyTruthy, hne, hn, hfil]

/-- C4, amended theorem.  An *authenticated* request whose `by_serverid` is
a non-empty, non-numeric string always fails with the validation error
"Server value error": the integer conversion inside the id filter raises
`ValueError`, which the `except` clause rewrites. -/
theorem nonnumeric_serverid_validation_error (db : List Server) (req : Request)
    (s : String) (hbs : req.by_serverid = some s) (hne : s ≠ "")
    (hnum : pyInt s = none) (hauth : req.userAuthenticated = true) :
    serverList db req = .error (.validationError "Server value error") := by
  have hne' : (s == "") = false := by
    simp [hne]
  rw [serverList, applyFilters_auth db req hauth]
  simp [stageServerId, hbs, pyTruthy, hne', hnum]

/-- C4, witness: `by_serverid=abc` from an authenticated requester yields
the validation error. -/
theorem nonnumeric_serverid_validation_error_witness :
    serverList [] { blankReq with by_serverid := some "abc", userAuthenticated := true } =
      .error (.validationError "Server value error") :=
  nonnumeric_serverid_validation_error []
    { blankReq with by_serverid := some "abc", userAuthenticated := true } "abc"
    rfl (by decide) rfl rfl

/-- C4, counterexample to the claim as stated: an *unauthenticated* request
with the same non-numeric `by_serverid` fails with the authentication
error, not a validation error — the authentication check precedes the
parse. -/
theorem nonnumeric_serverid_claim_cex :
    serverList [] { blankReq with by_serverid := some "abc" } =
      .error .authenticationFailed := rfl

/-- C5, amended theorem.  An *authenticated* request whose `by_serverid`
parses to an id held by no stored server fails with the validation error
whose message references the id exactly as transmitted. -/
theorem serverid_not_found_validation_error (db : List Server) (req : Request)
    (s : String) (n : Int) (hbs : req.by_serverid = some s) (hn : pyInt s = some n)
    (hauth : req.userAuthenticated = true)
    (hmiss : ∀ srv ∈ db, (srv.id : Int) ≠ n) :
    serverList db req = .error (.validationError ("Could not find server with ID " ++ s)) := by
  have hrows : ∀ srv ∈ (stageAnnotate (req.with_num_members == some "true")
      (if req.by_user == some "true" then
        (stageCategory req.category (QuerySet.all db)).filterMember req.userId
      else stageCategory req.category (QuerySet.all db))).rows, (srv.id : Int) ≠ n := by
    intro srv hsrv
    rw [stageAnnotate_rows] at hsrv
    apply hmiss
    by_cases hbu : (req.by_user == some "true") = true
    · rw [if_pos hbu] at hsrv
      simp only [QuerySet.filterMember, List.mem_filter] at hsrv
      exact (mem_stageCategory hsrv.1).1
    · rw [if_neg (by simpa using hbu)] at hsrv
      exact (mem_stageCategory hsrv).1
  rw [serverList, applyFilters_auth db req hauth, stageServerId_not_found hbs hn hrows]

/-- C5, witness: `by_serverid=7` against a store holding only server 5
yields the referencing validation error. -/
theorem serverid_not_found_validation_error_witness :
    serverList [⟨5, "g", []⟩]
        { blankReq with by_serverid := some "7", userAuthenticated := true } =
      .error (.validationError ("Could not find server with ID " ++ "7")) :=
  serverid_not_found_validation_error [⟨5, "g", []⟩]
    { blankReq with by_serverid := some "7", userAuthenticated := true } "7" 7
    rfl rfl rfl (by decide)

/-- C5, counterexample to the claim as stated: the same non-existent id
requested *without* authentication produces the authentication error, not
the referencing validation error. -/
theorem serverid_not_found_claim_cex :
    serverList [] { blankReq with by_serverid := some "7" } =
      .error .authenticationFailed := rfl

/-- C9, theorem (confirmed).  The existence check for `by_serverid` runs on
the *already filtered* queryset: when the named server exists in the store
but every stored server with that id is screened out by an earlier filter —
a non-matching category, or `by_user=true` with an identity that is not a
member — the authenticated request ends in the validation error
"Could not find server with ID <id>" rather than an empty list. -/
theorem serverid_existence_checked_after_filters (db : List Server) (req : Request)
    (s : String) (n : Int) (hauth : req.userAuthenticated = true)
    (hbs : req.by_serverid = some s) (hn : pyInt s = some n)
    (_hex : ∃ srv ∈ db, (srv.id : Int) = n)
    (hexcl : ∀ srv ∈ db, (srv.id : Int) = n →
      (pyTruthy req.category = true ∧ srv.category ≠ req.category.getD "") ∨
      (req.by_user = some "true" ∧ req.userId ∉ srv.members)) :
    serverList db req = .error (.validationError ("Could not find server with ID " ++ s)) := by
  have hrows : ∀ srv ∈ (stageAnnotate (req.with_num_members == some "true")
      (if req.by_user == some "true" then
        (stageCategory req.category (QuerySet.all db)).filterMember req.userId
      else stageCategory req.category (QuerySet.all db))).rows, (srv.id : Int) ≠ n := by
    intro srv hsrv heq
    rw [stageAnnotate_rows] at hsrv
    by_cases hbu : (req.by_user == some "true") = true
    · rw [if_pos hbu] at hsrv
      simp only [QuerySet.filterMember, List.mem_filter, decide_eq_true_eq] at hsrv
      have hc := mem_stageCategory hsrv.1
      rcases hexcl srv hc.1 heq with hcat | hmem
      · exact hcat.2 (by simpa using hc.2 hcat.1)
      · exact hmem.2 hsrv.2
    · rw [if_neg (by simpa using hbu)] at hsrv
      have hc := mem_stageCategory hsrv
      rcases hexcl srv hc.1 heq with hcat | hmem
      · exact hcat.2 (by simpa using hc.2 hcat.1)
      · exact hbu (by simp [hmem.1])
  rw [serverList, applyFilters_auth db req hauth, stageServerId_not_found hbs hn hrows]

/-- C9, witness: server 5 exists in category "gaming", the request filters
on category "music" and asks for `by_serverid=5`; the response is the
could-not-find validation error. -/
theorem serverid_existence_checked_after_filters_witness :
    serverList [⟨5, "gaming", []⟩]
        { blankReq with category := some "music", by_serverid := some "5",
                        userAuthenticated := true } =
      .error (.validationError ("Could not find server with ID " ++ "5")) :=
  serverid_existence_checked_after_filters [⟨5, "gaming", []⟩]
    { blankReq with category := some "music", by_serverid := some "5",
                    userAuthenticated := true } "5" 5
    rfl rfl rfl (by decide) (by decide)

/-- Mapping the ids over a serialized queryset is mapping the ids over its
rows. -/
theorem serialize_map_id (wnm : Bool) (qs : QuerySet) :
    (serialize wnm qs).map ServerOut.id = qs.rows.map Server.id := by
  simp [serialize, Function.comp]

/-- The rows the category stage keeps. -/
theorem stageCategory_rows (cat : Option String) (qs : QuerySet) :
    (stageCategory cat qs).rows =
      if pyTruthy cat then qs.rows.filter (fun s => s.category == cat.getD "") else qs.rows := by
  by_cases h : pyTruthy cat = true <;> simp [stageCategory, h, QuerySet.filterCategory]

/-- C6, amended theorem.  For every authenticated request with
`by_user=true`: (a) every object of a successful response corresponds to a
stored server whose membership contains the requesting identity; and
(b) when neither `by_serverid` nor `qty` is supplied, the response lists
exactly the category-filtered servers whose membership contains the
identity, in store order. -/
theorem by_user_returns_member_servers (db : List Server) (req : Request)
    (out : List ServerOut) (hbu : req.by_user = some "true")
    (hauth : req.userAuthenticated = true) (hok : serverList db req = .ok out) :
    (∀ o ∈ out, ∃ s ∈ db, o.id = s.id ∧ req.userId ∈ s.members) ∧
    (req.by_serverid = none → req.qty = none →
      out.map ServerOut.id =
        ((if pyTruthy req.category then
            db.filter (fun s => s.category == req.category.getD "")
          else db).filter (fun s => decide (req.userId ∈ s.members))).map Server.id) := by
  constructor
  · intro o ho
    cases hAF : applyFilters db req with
    | error e => simp [serverList, hAF] at hok
    | ok qs =>
      rw [serverList, hAF] at hok
      cases hQ : stageQty req.qty qs with
      | error e => simp [hQ] at hok
      | ok qs2 =>
        simp only [hQ, Except.ok.injEq] at hok
        subst hok
        simp only [serialize, List.mem_map] at ho
        obtain ⟨s, hs, rfl⟩ := ho
        have h1 := mem_stageQty hQ hs
        have h2 := mem_applyFilters hAF h1
        exact ⟨s, h2.1, rfl, h2.2.2 hbu⟩
  · intro hbs hq
    have hflag : (req.by_user == some "true") = true := by simp [hbu]
    rw [serverList, applyFilters_auth db req hauth, if_pos hflag] at hok
    rw [hbs] at hok
    rw [show stageServerId none true (stageAnnotate (req.with_num_members == some "true")
          ((stageCategory req.category (QuerySet.all db)).filterMember req.userId)) =
        .ok (stageAnnotate (req.with_num_members == some "true")
          ((stageCategory req.category (QuerySet.all db)).filterMember req.userId)) from rfl,
      hq] at hok
    simp only [stageQty, pyTruthy, Bool.false_eq_true, if_false, Except.ok.injEq] at hok
    subst hok
    rw [serialize_map_id, stageAnnotate_rows]
    simp only [QuerySet.filterMember, stageCategory_rows]
    by_cases hc : pyTruthy req.category = true <;> simp [hc, QuerySet.all]

/-- C6, witness: user 7 is a member of server 1 only; the by_user request
returns exactly server 1 and every returned object is one of user 7's
servers. -/
theorem by_user_returns_member_servers_witness :
    (∀ o ∈ [(⟨1, "g", none⟩ : ServerOut)],
      ∃ s ∈ [(⟨1, "g", [7]⟩ : Server), ⟨2, "g", []⟩], ServerOut.id o = s.id ∧ 7 ∈ s.members) ∧
    ((none : Option String) = none → (none : Option String) = none →
      [(⟨1, "g", none⟩ : ServerOut)].map ServerOut.id =
        ((if pyTruthy none then
            [(⟨1, "g", [7]⟩ : Server), ⟨2, "g", []⟩].filter
              (fun s => s.category == (none : Option String).getD "")
          else [(⟨1, "g", [7]⟩ : Server), ⟨2, "g", []⟩]).filter
            (fun s => decide (7 ∈ s.members))).map Server.id) :=
  by_user_returns_member_servers [⟨1, "g", [7]⟩, ⟨2, "g", []⟩]
    { blankReq with by_user := some "true", userAuthenticated := true, userId := 7 }
    [⟨1, "g", none⟩] rfl rfl rfl

/-- C6, counterexample to the claim as stated: user 7 belongs to both
stored servers, but the request also carries `qty=1`, so the response
holds only server 1 — not the whole membership set the claim promises for
*every* request with `by_user=true`. -/
theorem by_user_claim_cex :
    serverList [⟨1, "g", [7]⟩, ⟨2, "g", [7]⟩]
        { blankReq with by_user := some "true", qty := some "1",
                        userAuthenticated := true, userId := 7 } =
      .ok [⟨1, "g", none⟩] ∧
    7 ∈ (Server.members ⟨2, "g", [7]⟩) ∧
    (Server.id ⟨2, "g", [7]⟩) ∉ [(⟨1, "g", none⟩ : ServerOut)].map ServerOut.id :=
  ⟨rfl, by decide, by decide⟩

/-- C7, amended theorem.  A request supplying neither `by_user` nor
`by_serverid` is served without any authentication check (nothing here
constrains the authentication state), and — provided `qty`, when supplied,
parses to a non-negative integer — succeeds with the full store narrowed
only by the category filter and truncated by `qty`. -/
theorem no_auth_needed_full_list (db : List Server) (req : Request)
    (hbu : req.by_user = none) (hbs : req.by_serverid = none)
    (hq : req.qty = none ∨ ∃ q n, req.qty = some q ∧ pyInt q = some n ∧ 0 ≤ n) :
    ∃ out, serverList db req = .ok out ∧
      out.map ServerOut.id =
        (match req.qty with
         | none =>
            ((if pyTruthy req.category then
                db.filter (fun s => s.category == req.category.getD "")
              else db).map Server.id)
         | some q =>
            ((if pyTruthy req.category then
                db.filter (fun s => s.category == req.category.getD "")
              else db).map Server.id).take ((pyInt q).getD 0).toNat) := by
  have hflag : (req.by_user == some "true") = false := by simp [hbu]
  have hAF : applyFilters db req =
      .ok (stageAnnotate (req.with_num_members == some "true")
        (stageCategory req.category (QuerySet.all db))) := by
    rw [applyFilters, hflag, hbs]
    rfl
  have hrows : (stageAnnotate (req.with_num_members == some "true")
      (stageCategory req.category (QuerySet.all db))).rows =
      (if pyTruthy req.category then
        db.filter (fun s => s.category == req.category.getD "")
      else db) := by
    rw [stageAnnotate_rows, stageCategory_rows]
    by_cases hc : pyTruthy req.category = true <;> simp [hc, QuerySet.all]
  rcases hq with hqn | ⟨q, n, hq', hpn, hnn⟩
  · refine ⟨serialize (req.with_num_members == some "true")
      (stageAnnotate (req.with_num_members == some "true")
        (stageCategory req.category (QuerySet.all db))), ?_, ?_⟩
    · rw [serverList, hAF, hqn]
      rfl
    · rw [serialize_map_id, hrows, hqn]
  · have hne' : (q == "") = false := by simp [pyInt_ne_empty hpn]
    have hnneg : ¬ n < 0 := not_lt.mpr hnn
    refine ⟨serialize (req.with_num_members == some "true")
      { stageAnnotate (req.with_num_members == some "true")
          (stageCategory req.category (QuerySet.all db)) with
        rows := (stageAnnotate (req.with_num_members == some "true")
          (stageCategory req.category (QuerySet.all db))).rows.take n.toNat }, ?_, ?_⟩
    · rw [serverList, hAF, hq']
      simp only [stageQty, pyTruthy, hne', Bool.not_false, if_true, Option.getD_some, hpn,
        hnneg, if_false]
    · rw [serialize_take, List.map_take, serialize_map_id, hrows, hq']
      simp [hpn]

/-- C7, witness: with only `category=g` supplied (unauthenticated), the
response is exactly the stored servers of category "g". -/
theorem no_auth_needed_full_list_witness :
    ∃ out, serverList [⟨1, "g", []⟩, ⟨2, "h", []⟩] { blankReq with category := some "g" } =
        .ok out ∧ out.map ServerOut.id = [1] :=
  no_auth_needed_full_list [⟨1, "g", []⟩, ⟨2, "h", []⟩]
    { blankReq with category := some "g" } rfl rfl (Or.inl rfl)

/-- C7, counterexample to the claim as stated: a request without `by_user`
and `by_serverid` but with the malformed `qty=abc` does not succeed — the
unguarded `int(qty)` raises an uncaught fault. -/
theorem no_auth_claim_cex :
    serverList [⟨1, "g", []⟩] { blankReq with qty := some "abc" } =
      .error (.unhandledFault qtyFaultMsg) := rfl

/-- C8, amended theorem.  With a non-empty, non-numeric `qty`, the handler
never returns a response; and whenever the preceding filter stages complete
without their own designed error, the failure is precisely the unhandled
`ValueError` from the unguarded `int(qty)`. -/
theorem qty_nonnumeric_unhandled (db : List Server) (req : Request) (q : String)
    (hq : req.qty = some q) (hne : q ≠ "") (hnum : pyInt q = none) :
    (∀ out, serverList db req ≠ .ok out) ∧
    (∀ qs, applyFilters db req = .ok qs →
      serverList db req = .error (.unhandledFault qtyFaultMsg)) := by
  have hne' : (q == "") = false := by simp [hne]
  have hstage : ∀ qs, stageQty req.qty qs = .error (.unhandledFault qtyFaultMsg) := by
    intro qs
    simp [stageQty, hq, pyTruthy, hne', hnum]
  constructor
  · intro out hok
    cases hAF : applyFilters db req with
    | error e => simp [serverList, hAF] at hok
    | ok qs =>
      rw [serverList, hAF] at hok
      simp [hstage] at hok
  · intro qs hAF
    rw [serverList, hAF]
    simp [hstage]

/-- C8, witness: `qty=zz` with no other parameter: the filter stages
succeed and the request dies on the unhandled `ValueError`. -/
theorem qty_nonnumeric_unhandled_witness :
    (∀ out, serverList [] { blankReq with qty := some "zz" } ≠ .ok out) ∧
    (∀ qs, applyFilters [] { blankReq with qty := some "zz" } = .ok qs →
      serverList [] { blankReq with qty := some "zz" } =
        .error (.unhandledFault qtyFaultMsg)) :=
  qty_nonnumeric_unhandled [] { blankReq with qty := some "zz" } "zz"
    rfl (by decide) rfl

/-- C8, counterexample to the claim as stated: `qty=abc` is non-empty and
non-numeric, yet this authenticated request fails with a *designed
validation error* (the by_serverid existence check fires first), not with
an unhandled fault. -/
theorem qty_nonnumeric_claim_cex :
    serverList [] { blankReq with qty := some "abc", by_serverid := some "9",
                                  userAuthenticated := true } =
      .error (.validationError "Could not find server with ID 9") := rfl

/-- C10, amended theorem.  With a `qty` parsing to a negative integer, the
handler never returns a response (the at-most-N guarantee is never
exercised); and whenever the preceding filter stages complete without
their own designed error, the failure is precisely the unhandled
negative-indexing assertion raised by the queryset slice. -/
theorem qty_negative_unhandled (db : List Server) (req : Request) (q : String)
    (n : Int) (hq : req.qty = some q) (hn : pyInt q = some n) (hneg : n < 0) :
    (∀ out, serverList db req ≠ .ok out) ∧
    (∀ qs, applyFilters db req = .ok qs →
      serverList db req = .error (.unhandledFault negIndexMsg)) := by
  have hne' : (q == "") = false := by simp [pyInt_ne_empty hn]
  have hstage : ∀ qs, stageQty req.qty qs = .error (.unhandledFault negIndexMsg) := by
    intro qs
    simp [stageQty, hq, pyTruthy, hne', hn, hneg]
  constructor
  · intro out hok
    cases hAF : applyFilters db req with
    | error e => simp [serverList, hAF] at hok
    | ok qs =>
      rw [serverList, hAF] at hok
      simp [hstage] at hok
  · intro qs hAF
    rw [serverList, hAF]
    simp [hstage]

/-- C10, witness: `qty=-2` with no other parameter: the filter stages
succeed and the request dies on the negative-indexing assertion. -/
theorem qty_negative_unhandled_witness :
    (∀ out, serverList [] { blankReq with qty := some "-2" } ≠ .ok out) ∧
    (∀ qs, applyFilters [] { blankReq with qty := some "-2" } = .ok qs →
      serverList [] { blankReq with qty := some "-2" } =
        .error (.unhandledFault negIndexMsg)) :=
  qty_negative_unhandled [] { blankReq with qty := some "-2" } "-2" (-2)
    rfl rfl (by decide)

/-- C10, counterexample to the claim as stated: `qty=-1` parses to a
negative integer, yet this authenticated request never reaches the slice —
the by_serverid existence check fails first with a designed validation
error, so no unhandled slicing error is raised. -/
theorem qty_negative_claim_cex :
    serverList [] { blankReq with qty := some "-1", by_serverid := some "9",
                                  userAuthenticated := true } =
      .error (.validationError "Could not find server with ID 9") := rfl
